import Mathlib

/-!
Verification of the TableauAPI repository's natural-language specification
against a shallow embedding of its Python source.

Conventions of the embedding:
- Python `datetime` values are modelled by the abstract type `DT := Nat`
  (a point on the timeline); Python's `datetime` comparison is the order on
  `DT`.  Python's `str(dt)` / `datetime.fromisoformat` pair is exact on
  `datetime` values (every datetime prints to a string that parses back to
  the same value), so the serialize/parse pair on a top-level datetime field
  is modelled as the identity on `Option DT`, while a datetime buried inside
  a generic JSON dict (where the source never parses it back) is rendered to
  a string by `dtStr` and stays a string.
- Python `Dict[str, Any]` values (views, connections, lineage) are modelled
  by `JObj`, association lists over a small JSON value type `JVal`.
- Fallible Python code (raising exceptions) is modelled with `Except`;
  the repository's exception taxonomy is the inductive `PyError`.
-/

namespace TableauAPI

/-- Abstract model of a Python `datetime` value. -/
abbrev DT := Nat

/-- Rendering of a datetime by Python `str` / `isoformat` (injective placeholder
for the ISO-8601 text; the claims never inspect the characters). -/
def dtStr (d : DT) : String := Nat.repr d

/-- Minimal JSON value type for the `Dict[str, Any]` payloads (views,
connections, lineage entries). -/
inductive JVal
  | jnull
  | jstr (s : String)
  | jint (n : Int)
  | jbool (b : Bool)
  | jdt (d : DT)
deriving Repr, DecidableEq

/-- A Python `Dict[str, Any]` as an association list. -/
abbrev JObj := List (String × JVal)

/-- `json.dumps(..., default=str)` turns a datetime inside a generic dict into
its string rendering; every other JSON value is serialized as itself. -/
def jserializeVal : JVal → JVal
  | JVal.jdt d => JVal.jstr (dtStr d)
  | v => v

/-- Serialization of a generic dict: apply `jserializeVal` to every value. -/
def jserializeObj (o : JObj) : JObj :=
  o.map (fun kv => (kv.1, jserializeVal kv.2))

/-- The repository's exception taxonomy (`tableauapi/utils/exceptions.py`),
restricted to the kinds the claims mention. -/
inductive PyError
  | configurationError (msg : String)
  | authenticationError (msg : String)
  | storageError (msg : String)
deriving Repr, DecidableEq

/-- `WorkbookMetadata` dataclass (`core/metadata.py`). -/
structure WorkbookMetadata where
  id : String
  name : String
  description : Option String
  project_id : String
  project_name : String
  owner_id : String
  owner_name : String
  created_at : Option DT
  updated_at : Option DT
  size : Option Int
  webpage_url : Option String
  show_tabs : Option Bool
  content_url : Option String
  views : List JObj
  connections : List JObj
  tags : List String
  lineage : Option JObj
deriving Repr, DecidableEq

/-- `DatasourceMetadata` dataclass (`core/metadata.py`). -/
structure DatasourceMetadata where
  id : String
  name : String
  description : Option String
  project_id : String
  project_name : String
  owner_id : String
  owner_name : String
  created_at : Option DT
  updated_at : Option DT
  size : Option Int
  webpage_url : Option String
  content_url : Option String
  connections : List JObj
  tags : List String
  lineage : Option JObj
deriving Repr, DecidableEq

/-- `ProjectMetadata` dataclass (`core/metadata.py`). -/
structure ProjectMetadata where
  id : String
  name : String
  description : Option String
  parent_id : Option String
  content_permissions : Option String
  created_at : Option DT
  updated_at : Option DT
  workbook_count : Int
  datasource_count : Int
  flow_count : Int
deriving Repr, DecidableEq

/-- `FlowMetadata` dataclass (`core/metadata.py`). -/
structure FlowMetadata where
  id : String
  name : String
  description : Option String
  project_id : String
  project_name : String
  owner_id : String
  owner_name : String
  created_at : Option DT
  updated_at : Option DT
  webpage_url : Option String
  tags : List String
deriving Repr, DecidableEq

/-- `ServerMetadata` dataclass (`core/metadata.py`): the root aggregate. -/
structure ServerMetadata where
  server_url : String
  version : String
  rest_api_version : String
  site_id : String
  site_name : String
  timestamp : DT
  workbooks : List WorkbookMetadata
  datasources : List DatasourceMetadata
  projects : List ProjectMetadata
  flows : List FlowMetadata
deriving Repr, DecidableEq

lemma ServerMetadata.ext_fields {a b : ServerMetadata}
    (h1 : a.server_url = b.server_url) (h2 : a.version = b.version)
    (h3 : a.rest_api_version = b.rest_api_version) (h4 : a.site_id = b.site_id)
    (h5 : a.site_name = b.site_name) (h6 : a.timestamp = b.timestamp)
    (h7 : a.workbooks = b.workbooks) (h8 : a.datasources = b.datasources)
    (h9 : a.projects = b.projects) (h10 : a.flows = b.flows) : a = b := by
  cases a; cases b; simp_all

/-- The filter dictionary accepted by `MetadataProcessor.filter_metadata`:
a key present in the Python dict is a `some` field here. -/
structure Filters where
  project_names : Option (List String)
  owner_names : Option (List String)
  tags : Option (List String)
  updated_since : Option DT
deriving Repr, DecidableEq

/-- The empty filter dictionary. -/
def noFilters : Filters :=
  { project_names := none, owner_names := none, tags := none, updated_since := none }

/-- One conditional filtering pass: Python's
`if key in filters: xs = [x for x in xs if pred(filters[key], x)]`. -/
def optFilter (o : Option β) (p : β → α → Bool) (l : List α) : List α :=
  match o with
  | some v => l.filter (p v)
  | none => l

/-- `wb.project_name in project_names`. -/
def wbProjPred (project_names : List String) (wb : WorkbookMetadata) : Bool :=
  project_names.contains wb.project_name

/-- `wb.owner_name in owner_names`. -/
def wbOwnerPred (owner_names : List String) (wb : WorkbookMetadata) : Bool :=
  owner_names.contains wb.owner_name

/-- `any(tag in wb.tags for tag in tags)`. -/
def wbTagPred (tags : List String) (wb : WorkbookMetadata) : Bool :=
  tags.any (fun tag => wb.tags.contains tag)

/-- `wb.updated_at and wb.updated_at >= updated_since`
(a `datetime` is always truthy, so the first conjunct is a None test). -/
def wbSincePred (updated_since : DT) (wb : WorkbookMetadata) : Bool :=
  match wb.updated_at with
  | some d => decide (updated_since ≤ d)
  | none => false

/-- `ds.project_name in project_names`. -/
def dsProjPred (project_names : List String) (ds : DatasourceMetadata) : Bool :=
  project_names.contains ds.project_name

/-- `ds.owner_name in owner_names`. -/
def dsOwnerPred (owner_names : List String) (ds : DatasourceMetadata) : Bool :=
  owner_names.contains ds.owner_name

/-- `any(tag in ds.tags for tag in tags)`. -/
def dsTagPred (tags : List String) (ds : DatasourceMetadata) : Bool :=
  tags.any (fun tag => ds.tags.contains tag)

/-- `ds.updated_at and ds.updated_at >= updated_since`. -/
def dsSincePred (updated_since : DT) (ds : DatasourceMetadata) : Bool :=
  match ds.updated_at with
  | some d => decide (updated_since ≤ d)
  | none => false

/-- `p.name in project_names` (projects are matched on their own name). -/
def projNamePred (project_names : List String) (p : ProjectMetadata) : Bool :=
  project_names.contains p.name

/-- `f.project_name in project_names`. -/
def flProjPred (project_names : List String) (f : FlowMetadata) : Bool :=
  project_names.contains f.project_name

/-- `f.owner_name in owner_names`. -/
def flOwnerPred (owner_names : List String) (f : FlowMetadata) : Bool :=
  owner_names.contains f.owner_name

/-- `any(tag in f.tags for tag in tags)`. -/
def flTagPred (tags : List String) (f : FlowMetadata) : Bool :=
  tags.any (fun tag => f.tags.contains tag)

/-- `f.updated_at and f.updated_at >= updated_since`. -/
def flSincePred (updated_since : DT) (f : FlowMetadata) : Bool :=
  match f.updated_at with
  | some d => decide (updated_since ≤ d)
  | none => false

/-- `MetadataProcessor.filter_metadata` (`core/metadata.py`).  The source
starts each list at the unfiltered value and applies one list comprehension
per present key, in the fixed order project_names, owner_names, tags,
updated_since; the projects list is only touched by the project_names key.
The result copies every scalar field of the input unchanged. -/
def filter_metadata (metadata : ServerMetadata) (filters : Filters) : ServerMetadata :=
  { server_url := metadata.server_url
    version := metadata.version
    rest_api_version := metadata.rest_api_version
    site_id := metadata.site_id
    site_name := metadata.site_name
    timestamp := metadata.timestamp
    workbooks :=
      optFilter filters.updated_since wbSincePred
        (optFilter filters.tags wbTagPred
          (optFilter filters.owner_names wbOwnerPred
            (optFilter filters.project_names wbProjPred metadata.workbooks)))
    datasources :=
      optFilter filters.updated_since dsSincePred
        (optFilter filters.tags dsTagPred
          (optFilter filters.owner_names dsOwnerPred
            (optFilter filters.project_names dsProjPred metadata.datasources)))
    projects := optFilter filters.project_names projNamePred metadata.projects
    flows :=
      optFilter filters.updated_since flSincePred
        (optFilter filters.tags flTagPred
          (optFilter filters.owner_names flOwnerPred
            (optFilter filters.project_names flProjPred metadata.flows))) }

/-- The predicate an optional filter key imposes (absent key = no constraint). -/
def optPred (o : Option β) (p : β → α → Bool) (a : α) : Bool :=
  match o with
  | some v => p v a
  | none => true

/-- Conjunction of the predicates `filter_metadata` imposes on a workbook. -/
def wbKeep (fs : Filters) (wb : WorkbookMetadata) : Bool :=
  optPred fs.project_names wbProjPred wb && optPred fs.owner_names wbOwnerPred wb
    && optPred fs.tags wbTagPred wb && optPred fs.updated_since wbSincePred wb

/-- Conjunction of the predicates `filter_metadata` imposes on a datasource. -/
def dsKeep (fs : Filters) (ds : DatasourceMetadata) : Bool :=
  optPred fs.project_names dsProjPred ds && optPred fs.owner_names dsOwnerPred ds
    && optPred fs.tags dsTagPred ds && optPred fs.updated_since dsSincePred ds

/-- The only predicate `filter_metadata` imposes on a project: name membership. -/
def projKeep (fs : Filters) (p : ProjectMetadata) : Bool :=
  optPred fs.project_names projNamePred p

/-- Conjunction of the predicates `filter_metadata` imposes on a flow. -/
def flKeep (fs : Filters) (f : FlowMetadata) : Bool :=
  optPred fs.project_names flProjPred f && optPred fs.owner_names flOwnerPred f
    && optPred fs.tags flTagPred f && optPred fs.updated_since flSincePred f

lemma optPred_none (p : β → α → Bool) :
    (optPred (none : Option β) p : α → Bool) = fun _ => true := by
  funext a; rfl

lemma optPred_some (v : β) (p : β → α → Bool) :
    (optPred (some v) p : α → Bool) = p v := by
  funext a; rfl

lemma optFilter_eq_filter (o : Option β) (p : β → α → Bool) (l : List α) :
    optFilter o p l = l.filter (optPred o p) := by
  cases o with
  | none => simp [optFilter, optPred_none]
  | some v => simp [optFilter, optPred_some]

lemma filter_metadata_workbooks (m : ServerMetadata) (fs : Filters) :
    (filter_metadata m fs).workbooks = m.workbooks.filter (wbKeep fs) := by
  simp only [filter_metadata, optFilter_eq_filter, List.filter_filter]
  apply List.filter_congr
  intro x _
  simp [wbKeep, Bool.and_assoc, Bool.and_comm, Bool.and_left_comm]

lemma filter_metadata_datasources (m : ServerMetadata) (fs : Filters) :
    (filter_metadata m fs).datasources = m.datasources.filter (dsKeep fs) := by
  simp only [filter_metadata, optFilter_eq_filter, List.filter_filter]
  apply List.filter_congr
  intro x _
  simp [dsKeep, Bool.and_assoc, Bool.and_comm, Bool.and_left_comm]

lemma filter_metadata_projects (m : ServerMetadata) (fs : Filters) :
    (filter_metadata m fs).projects = m.projects.filter (projKeep fs) := by
  simp only [filter_metadata, optFilter_eq_filter]
  rfl

lemma filter_metadata_flows (m : ServerMetadata) (fs : Filters) :
    (filter_metadata m fs).flows = m.flows.filter (flKeep fs) := by
  simp only [filter_metadata, optFilter_eq_filter, List.filter_filter]
  apply List.filter_congr
  intro x _
  simp [flKeep, Bool.and_assoc, Bool.and_comm, Bool.and_left_comm]

/-- Merge of two optional filter values; with disjoint key sets at most one
side is present, so the merge is unambiguous. -/
def optUnion (a b : Option β) : Option β :=
  match a with
  | some v => some v
  | none => b

/-- Union of two filter dictionaries (key-wise merge). -/
def unionFilters (A B : Filters) : Filters :=
  { project_names := optUnion A.project_names B.project_names
    owner_names := optUnion A.owner_names B.owner_names
    tags := optUnion A.tags B.tags
    updated_since := optUnion A.updated_since B.updated_since }

/-- Two filter dictionaries have disjoint key sets. -/
def DisjointFilters (A B : Filters) : Prop :=
  (A.project_names = none ∨ B.project_names = none)
    ∧ (A.owner_names = none ∨ B.owner_names = none)
    ∧ (A.tags = none ∨ B.tags = none)
    ∧ (A.updated_since = none ∨ B.updated_since = none)

lemma optPred_union (a b : Option β) (p : β → α → Bool) (x : α)
    (h : a = none ∨ b = none) :
    optPred (optUnion a b) p x = (optPred a p x && optPred b p x) := by
  rcases h with rfl | rfl
  · cases b <;> simp [optUnion, optPred]
  · cases a <;> simp [optUnion, optPred]

lemma wbKeep_union {A B : Filters} (h : DisjointFilters A B)
    (x : WorkbookMetadata) :
    wbKeep (unionFilters A B) x = (wbKeep A x && wbKeep B x) := by
  obtain ⟨h1, h2, h3, h4⟩ := h
  simp only [wbKeep, unionFilters, optPred_union _ _ _ _ h1,
    optPred_union _ _ _ _ h2, optPred_union _ _ _ _ h3, optPred_union _ _ _ _ h4]
  simp [Bool.and_assoc, Bool.and_comm, Bool.and_left_comm]

lemma dsKeep_union {A B : Filters} (h : DisjointFilters A B)
    (x : DatasourceMetadata) :
    dsKeep (unionFilters A B) x = (dsKeep A x && dsKeep B x) := by
  obtain ⟨h1, h2, h3, h4⟩ := h
  simp only [dsKeep, unionFilters, optPred_union _ _ _ _ h1,
    optPred_union _ _ _ _ h2, optPred_union _ _ _ _ h3, optPred_union _ _ _ _ h4]
  simp [Bool.and_assoc, Bool.and_comm, Bool.and_left_comm]

lemma projKeep_union {A B : Filters} (h : DisjointFilters A B)
    (x : ProjectMetadata) :
    projKeep (unionFilters A B) x = (projKeep A x && projKeep B x) := by
  simp only [projKeep, unionFilters, optPred_union _ _ _ _ h.1]

lemma flKeep_union {A B : Filters} (h : DisjointFilters A B)
    (x : FlowMetadata) :
    flKeep (unionFilters A B) x = (flKeep A x && flKeep B x) := by
  obtain ⟨h1, h2, h3, h4⟩ := h
  simp only [flKeep, unionFilters, optPred_union _ _ _ _ h1,
    optPred_union _ _ _ _ h2, optPred_union _ _ _ _ h3, optPred_union _ _ _ _ h4]
  simp [Bool.and_assoc, Bool.and_comm, Bool.and_left_comm]

/-! ## JSON serialization and the storage load path

`MetadataProcessor.metadata_to_dict` is `dataclasses.asdict`, and
`metadata_to_json` is `json.dumps(..., default=str)`: every dataclass field
is kept under its own key, datetime values are rendered with `str`, and
`json.loads` recovers the same dictionary tree.  Since Python's
`str(datetime)` / `datetime.fromisoformat` pair is exact, a top-level
datetime field of the dictionary is modelled by the datetime value itself
(`Option DT`); datetimes inside generic `Dict[str, Any]` payloads become
strings and are never parsed back. -/

/-- The serialized form of a `WorkbookMetadata` (one entry of the
`"workbooks"` list of the JSON document). -/
structure WorkbookDict where
  id : String
  name : String
  description : Option String
  project_id : String
  project_name : String
  owner_id : String
  owner_name : String
  created_at : Option DT
  updated_at : Option DT
  size : Option Int
  webpage_url : Option String
  show_tabs : Option Bool
  content_url : Option String
  views : List JObj
  connections : List JObj
  tags : List String
  lineage : Option JObj
deriving Repr, DecidableEq

/-- The serialized form of a `DatasourceMetadata`. -/
structure DatasourceDict where
  id : String
  name : String
  description : Option String
  project_id : String
  project_name : String
  owner_id : String
  owner_name : String
  created_at : Option DT
  updated_at : Option DT
  size : Option Int
  webpage_url : Option String
  content_url : Option String
  connections : List JObj
  tags : List String
  lineage : Option JObj
deriving Repr, DecidableEq

/-- The serialized form of a `ProjectMetadata`. -/
structure ProjectDict where
  id : String
  name : String
  description : Option String
  parent_id : Option String
  content_permissions : Option String
  created_at : Option DT
  updated_at : Option DT
  workbook_count : Int
  datasource_count : Int
  flow_count : Int
deriving Repr, DecidableEq

/-- The serialized form of a `FlowMetadata`. -/
structure FlowDict where
  id : String
  name : String
  description : Option String
  project_id : String
  project_name : String
  owner_id : String
  owner_name : String
  created_at : Option DT
  updated_at : Option DT
  webpage_url : Option String
  tags : List String
deriving Repr, DecidableEq

/-- The serialized form of a `ServerMetadata` (the whole JSON document). -/
structure ServerDict where
  server_url : String
  version : String
  rest_api_version : String
  site_id : String
  site_name : String
  timestamp : DT
  workbooks : List WorkbookDict
  datasources : List DatasourceDict
  projects : List ProjectDict
  flows : List FlowDict
deriving Repr, DecidableEq

/-- Serialization of one workbook: every field keeps its value; datetimes
buried in the views/connections dicts are rendered to strings. -/
def workbook_to_dict (wb : WorkbookMetadata) : WorkbookDict :=
  { id := wb.id, name := wb.name, description := wb.description
    project_id := wb.project_id, project_name := wb.project_name
    owner_id := wb.owner_id, owner_name := wb.owner_name
    created_at := wb.created_at, updated_at := wb.updated_at
    size := wb.size, webpage_url := wb.webpage_url, show_tabs := wb.show_tabs
    content_url := wb.content_url
    views := wb.views.map jserializeObj
    connections := wb.connections.map jserializeObj
    tags := wb.tags
    lineage := wb.lineage.map jserializeObj }

/-- Serialization of one datasource. -/
def datasource_to_dict (ds : DatasourceMetadata) : DatasourceDict :=
  { id := ds.id, name := ds.name, description := ds.description
    project_id := ds.project_id, project_name := ds.project_name
    owner_id := ds.owner_id, owner_name := ds.owner_name
    created_at := ds.created_at, updated_at := ds.updated_at
    size := ds.size, webpage_url := ds.webpage_url
    content_url := ds.content_url
    connections := ds.connections.map jserializeObj
    tags := ds.tags
    lineage := ds.lineage.map jserializeObj }

/-- Serialization of one project. -/
def project_to_dict (p : ProjectMetadata) : ProjectDict :=
  { id := p.id, name := p.name, description := p.description
    parent_id := p.parent_id, content_permissions := p.content_permissions
    created_at := p.created_at, updated_at := p.updated_at
    workbook_count := p.workbook_count, datasource_count := p.datasource_count
    flow_count := p.flow_count }

/-- Serialization of one flow. -/
def flow_to_dict (f : FlowMetadata) : FlowDict :=
  { id := f.id, name := f.name, description := f.description
    project_id := f.project_id, project_name := f.project_name
    owner_id := f.owner_id, owner_name := f.owner_name
    created_at := f.created_at, updated_at := f.updated_at
    webpage_url := f.webpage_url, tags := f.tags }

/-- `MetadataProcessor.metadata_to_dict` composed with
`json.dumps` / `json.loads`: the dictionary tree the storage layer sees when
it loads a saved document.  All four entity lists are present. -/
def metadata_to_dict (m : ServerMetadata) : ServerDict :=
  { server_url := m.server_url, version := m.version
    rest_api_version := m.rest_api_version
    site_id := m.site_id, site_name := m.site_name
    timestamp := m.timestamp
    workbooks := m.workbooks.map workbook_to_dict
    datasources := m.datasources.map datasource_to_dict
    projects := m.projects.map project_to_dict
    flows := m.flows.map flow_to_dict }

/-- `parse_datetime` inside `LocalStorage._dict_to_metadata`:
`datetime.fromisoformat(s.replace("Z", "+00:00"))` when the value is truthy,
`None` otherwise.  `fromisoformat` inverts `str` exactly, so on the datetime
model the parse returns the stored value. -/
def parse_datetime : Option DT → Option DT
  | some d => some d
  | none => none

/-- The workbook reconstruction inside `LocalStorage._dict_to_metadata`:
every scalar field is read back, datetime fields go through
`parse_datetime`, and views/connections/tags/lineage are taken as the raw
deserialized JSON values. -/
def dict_to_workbook (d : WorkbookDict) : WorkbookMetadata :=
  { id := d.id, name := d.name, description := d.description
    project_id := d.project_id, project_name := d.project_name
    owner_id := d.owner_id, owner_name := d.owner_name
    created_at := parse_datetime d.created_at
    updated_at := parse_datetime d.updated_at
    size := d.size, webpage_url := d.webpage_url, show_tabs := d.show_tabs
    content_url := d.content_url
    views := d.views, connections := d.connections, tags := d.tags
    lineage := d.lineage }

/-- `LocalStorage._dict_to_metadata` (`core/storage.py`): reconstructs the
workbook list from the dictionary, then — per the source comment "For
brevity, I'll create empty lists for now" — sets the datasources, projects
and flows lists to empty regardless of the stored data. -/
def dict_to_metadata (data : ServerDict) : ServerMetadata :=
  { server_url := data.server_url, version := data.version
    rest_api_version := data.rest_api_version
    site_id := data.site_id, site_name := data.site_name
    timestamp := (parse_datetime (some data.timestamp)).getD data.timestamp
    workbooks := data.workbooks.map dict_to_workbook
    datasources := []
    projects := []
    flows := [] }

/-- The id, name and timestamp fields of a workbook, the projection claim C1
compares across the round trip. -/
def wbKey (wb : WorkbookMetadata) : String × String × Option DT × Option DT :=
  (wb.id, wb.name, wb.created_at, wb.updated_at)

/-! ## Summary statistics (`MetadataProcessor.get_metadata_summary`) -/

/-- The `"counts"` sub-dictionary of the summary. -/
structure SummaryCounts where
  workbooks : Nat
  datasources : Nat
  projects : Nat
  flows : Nat
deriving Repr, DecidableEq

/-- One entry of a `"recent_updates"` list: name plus `isoformat` string of
the update time (or `None`). -/
structure RecentUpdate where
  name : String
  updated_at : Option String
deriving Repr, DecidableEq

/-- The dictionary returned by `get_metadata_summary`; the nested
`"recent_updates"` dict is flattened into its two lists. -/
structure MetadataSummary where
  server_url : String
  site_name : String
  timestamp : String
  counts : SummaryCounts
  projects : List (String × String)
  recent_workbooks : List RecentUpdate
  recent_datasources : List RecentUpdate
deriving Repr, DecidableEq

/-- `sorted(l, key=lambda x: x.updated_at or datetime.min, reverse=True)`:
a datetime is always truthy, so a missing update time sorts as the minimum;
`reverse=True` sorts descending. -/
def sortByUpdatedDesc (key : α → Option DT) (l : List α) : List α :=
  l.mergeSort (fun a b => (key b).getD 0 ≤ (key a).getD 0)

/-- `MetadataProcessor.get_metadata_summary` (`core/metadata.py`): counts of
the four lists, the project name/id pairs, and the five most recently
updated workbooks and datasources. -/
def get_metadata_summary (m : ServerMetadata) : MetadataSummary :=
  { server_url := m.server_url
    site_name := m.site_name
    timestamp := dtStr m.timestamp
    counts :=
      { workbooks := m.workbooks.length, datasources := m.datasources.length
        projects := m.projects.length, flows := m.flows.length }
    projects := m.projects.map (fun p => (p.name, p.id))
    recent_workbooks :=
      ((sortByUpdatedDesc (fun wb => wb.updated_at) m.workbooks).take 5).map
        (fun wb => { name := wb.name, updated_at := wb.updated_at.map dtStr })
    recent_datasources :=
      ((sortByUpdatedDesc (fun ds => ds.updated_at) m.datasources).take 5).map
        (fun ds => { name := ds.name, updated_at := ds.updated_at.map dtStr }) }

/-! ## Storage deletion (`LocalStorage` / `S3Storage` `delete_metadata`)

The local filesystem is modelled as the list of paths that currently exist
(each path occurs once on a real filesystem, so removal is modelled by
dropping every occurrence); the S3 bucket likewise as the list of object
keys under the configured prefix. -/

/-- `LocalStorage.delete_metadata` (`core/storage.py`): `unlink` and return
`True` when the file exists, return `False` otherwise. -/
def local_delete_metadata (fs : List String) (path : String) :
    Bool × List String :=
  if fs.contains path then (true, fs.filter (fun q => q != path))
  else (false, fs)

/-- `S3Storage.delete_metadata` (`core/storage.py`): calls
`delete_object` and returns `True` unconditionally — the boto3 call succeeds
whether or not the key exists, so no exception interrupts the `return True`. -/
def s3_delete_metadata (objects : List String) (key : String) :
    Bool × List String :=
  (true, objects.filter (fun q => q != key))

/-! ## Authentication (`core/auth.py`) -/

/-- `AuthMethod` enum. -/
inductive AuthMethod
  | personal_access_token
  | username_password
  | jwt
deriving Repr, DecidableEq

/-- `AuthConfig` dataclass. -/
structure AuthConfig where
  server_url : String
  site_id : String
  auth_method : AuthMethod
  token_name : Option String
  token_value : Option String
  username : Option String
  password : Option String
  jwt_token : Option String
deriving Repr, DecidableEq

/-- The environment variables `create_auth_config_from_env` reads
(`os.getenv` returns `None` for an unset variable). -/
structure Env where
  server_url : Option String
  site_id : Option String
  token_name : Option String
  token_value : Option String
  username : Option String
  password : Option String
  jwt_token : Option String
deriving Repr, DecidableEq

/-- Python truthiness of an `os.getenv` result: `None` and the empty string
are falsy. -/
def truthy : Option String → Bool
  | none => false
  | some s => s != ""

/-- `create_auth_config_from_env` (`core/auth.py`): requires the server URL,
then picks the first complete credential pair in the order PAT, then
username/password, then JWT, and fails with a `ConfigurationError` when none
is complete. -/
def create_auth_config_from_env (env : Env) : Except PyError AuthConfig :=
  if !truthy env.server_url then
    Except.error (PyError.configurationError
      "TABLEAU_SERVER_URL environment variable required")
  else
    let server_url := env.server_url.getD ""
    let site_id := env.site_id.getD ""
    if truthy env.token_name && truthy env.token_value then
      Except.ok
        { server_url := server_url, site_id := site_id
          auth_method := AuthMethod.personal_access_token
          token_name := env.token_name, token_value := env.token_value
          username := none, password := none, jwt_token := none }
    else if truthy env.username && truthy env.password then
      Except.ok
        { server_url := server_url, site_id := site_id
          auth_method := AuthMethod.username_password
          token_name := none, token_value := none
          username := env.username, password := env.password, jwt_token := none }
    else if truthy env.jwt_token then
      Except.ok
        { server_url := server_url, site_id := site_id
          auth_method := AuthMethod.jwt
          token_name := none, token_value := none
          username := none, password := none, jwt_token := env.jwt_token }
    else
      Except.error (PyError.configurationError
        "No valid authentication credentials found in environment variables")

/-- The vendor SDK's server handle, reduced to the one observable the
authenticator consults: `server.is_signed_in()`. -/
structure TSCServer where
  signed_in : Bool
deriving Repr, DecidableEq

/-- `TableauAuthenticator.authenticate`: one call to the vendor
`auth.sign_in` (outcome `signInAttempt 0`; further entries of the sequence
model what later attempts would return, and are never consulted — there is
no retry).  On success the server is signed in; on any exception an
`AuthenticationError` embedding the cause is raised. -/
def authenticate (signInAttempt : Nat → Except String Unit) :
    Except PyError TSCServer :=
  match signInAttempt 0 with
  | Except.ok _ => Except.ok { signed_in := true }
  | Except.error e =>
      Except.error (PyError.authenticationError ("Authentication failed: " ++ e))

/-- `TableauAuthenticator.sign_out`: when the server reports signed in, one
vendor `auth.sign_out` call (its outcome is `vendorSignOut`); otherwise no
vendor call is made and the state is untouched.  A vendor exception is
re-raised as an `AuthenticationError` embedding the cause. -/
def sign_out (server : TSCServer) (vendorSignOut : Except String Unit) :
    Except PyError TSCServer :=
  if server.signed_in then
    match vendorSignOut with
    | Except.ok _ => Except.ok { signed_in := false }
    | Except.error e =>
        Except.error (PyError.authenticationError ("Sign out failed: " ++ e))
  else Except.ok server

/-! ## Retry wrappers (`core/client.py` and `utils/helpers.py`)

An operation is modelled as a function from the attempt index to its
outcome.  The wrapper returns the final outcome together with the list of
sleep durations (in seconds, exact rationals) it performed between
attempts. -/

/-- The loop body of `TableauClient._retry_operation` for the remaining
number of attempts: on the last attempt the outcome (result or exception) is
returned as is; earlier, a failure sleeps `retry_delay * 2 ** attempt` and
moves to the next attempt.  (`_retry_count` is fixed at 3, so the
zero-remaining case never arises from `retry_operation`.) -/
def retryGo (op : Nat → Except E A) (retry_delay : ℚ) :
    Nat → Nat → Except E A × List ℚ
  | attempt, 0 => (op attempt, [])
  | attempt, 1 => (op attempt, [])
  | attempt, n + 2 =>
    match op attempt with
    | Except.ok v => (Except.ok v, [])
    | Except.error _ =>
      let rest := retryGo op retry_delay (attempt + 1) (n + 1)
      (rest.1, retry_delay * 2 ^ attempt :: rest.2)

/-- `TableauClient._retry_operation` with the constructor's fixed
`_retry_count = 3` and `_retry_delay = 1.0`. -/
def retry_operation (op : Nat → Except E A) : Except E A × List ℚ :=
  retryGo op 1 0 3

/-- The loop of `retry_on_failure` (`utils/helpers.py`): same shape, but the
delay variable itself is slept and then doubled after each failure. -/
def retryOnFailureGo (func : Nat → Except E A) :
    Nat → ℚ → Nat → Except E A × List ℚ
  | attempt, _, 0 => (func attempt, [])
  | attempt, _, 1 => (func attempt, [])
  | attempt, delay, n + 2 =>
    match func attempt with
    | Except.ok v => (Except.ok v, [])
    | Except.error _ =>
      let rest := retryOnFailureGo func (attempt + 1) (delay * 2) (n + 1)
      (rest.1, delay :: rest.2)

/-- `retry_on_failure` with its default arguments `max_retries=3`,
`delay=1.0`. -/
def retry_on_failure (func : Nat → Except E A) : Except E A × List ℚ :=
  retryOnFailureGo func 0 1 3

/-! ## CSV export (`cli/commands/export.py`, `_export_csv`)

A produced CSV file is modelled by its name and its rows (each row a list of
cell strings, the header first).  The source writes a file only inside
`if metadata.workbooks:` (resp. datasources, projects) blocks, and has no
block for flows. -/

/-- One CSV file: its filename and its rows. -/
structure CsvFile where
  name : String
  rows : List (List String)
deriving Repr, DecidableEq

/-- `isoformat` rendering of a datetime (same abstract rendering as `str`). -/
def dtIso (d : DT) : String := dtStr d

/-- `str` of a Python bool, as the csv writer renders it. -/
def pyBoolStr (b : Bool) : String := if b then "True" else "False"

/-- The workbook header row written by `_export_csv`. -/
def wbCsvHeader : List String :=
  ["ID", "Name", "Description", "Project", "Owner", "Created", "Updated",
   "Size", "URL", "Show Tabs", "Tags"]

/-- The datasource header row written by `_export_csv`. -/
def dsCsvHeader : List String :=
  ["ID", "Name", "Description", "Project", "Owner", "Created", "Updated",
   "Size", "URL", "Tags"]

/-- The project header row written by `_export_csv`. -/
def projCsvHeader : List String :=
  ["ID", "Name", "Description", "Parent ID", "Permissions", "Created",
   "Updated"]

/-- One workbook data row of `_export_csv`. -/
def wbCsvRow (wb : WorkbookMetadata) : List String :=
  [wb.id, wb.name, wb.description.getD "", wb.project_name, wb.owner_name,
   (wb.created_at.map dtIso).getD "", (wb.updated_at.map dtIso).getD "",
   toString (wb.size.getD 0), wb.webpage_url.getD "",
   pyBoolStr (wb.show_tabs.getD false),
   String.intercalate "," wb.tags]

/-- One datasource data row of `_export_csv`. -/
def dsCsvRow (ds : DatasourceMetadata) : List String :=
  [ds.id, ds.name, ds.description.getD "", ds.project_name, ds.owner_name,
   (ds.created_at.map dtIso).getD "", (ds.updated_at.map dtIso).getD "",
   toString (ds.size.getD 0), ds.webpage_url.getD "",
   String.intercalate "," ds.tags]

/-- One project data row of `_export_csv`. -/
def projCsvRow (p : ProjectMetadata) : List String :=
  [p.id, p.name, p.description.getD "", p.parent_id.getD "",
   p.content_permissions.getD "",
   (p.created_at.map dtIso).getD "", (p.updated_at.map dtIso).getD ""]

/-- `_export_csv` (`cli/commands/export.py`): three conditional writes, each
guarded by non-emptiness of the corresponding list, each producing a header
row followed by one data row per entity; flows are never written. -/
def export_csv (metadata : ServerMetadata) : List CsvFile :=
  (if metadata.workbooks.isEmpty then [] else
    [{ name := "workbooks.csv"
       rows := wbCsvHeader :: metadata.workbooks.map wbCsvRow }])
  ++ (if metadata.datasources.isEmpty then [] else
    [{ name := "datasources.csv"
       rows := dsCsvHeader :: metadata.datasources.map dsCsvRow }])
  ++ (if metadata.projects.isEmpty then [] else
    [{ name := "projects.csv"
       rows := projCsvHeader :: metadata.projects.map projCsvRow }])

/-! ## Concrete sample data for witnesses and counterexamples -/

/-- A sample workbook. -/
def wb1 : WorkbookMetadata :=
  { id := "wb-1", name := "Sales Dashboard", description := some "Q1"
    project_id := "p-1", project_name := "Sales", owner_id := "u-1"
    owner_name := "alice", created_at := some 100, updated_at := some 200
    size := some 1024, webpage_url := some "https://srv/wb1"
    show_tabs := some true, content_url := some "sales-dash"
    views := [[("id", JVal.jstr "v-1"), ("created_at", JVal.jdt 150)]]
    connections := [], tags := ["certified"], lineage := none }

/-- A second sample workbook, with no timestamps. -/
def wb2 : WorkbookMetadata :=
  { id := "wb-2", name := "Ops Dashboard", description := none
    project_id := "p-2", project_name := "Ops", owner_id := "u-2"
    owner_name := "bob", created_at := none, updated_at := none
    size := none, webpage_url := none, show_tabs := none, content_url := none
    views := [], connections := [], tags := [], lineage := none }

/-- A sample datasource. -/
def ds1 : DatasourceMetadata :=
  { id := "ds-1", name := "Warehouse", description := none
    project_id := "p-1", project_name := "Sales", owner_id := "u-1"
    owner_name := "alice", created_at := some 110, updated_at := some 210
    size := some 2048, webpage_url := none, content_url := some "warehouse"
    connections := [], tags := ["certified"], lineage := none }

/-- A sample project. -/
def p1 : ProjectMetadata :=
  { id := "p-1", name := "Sales", description := some "Sales content"
    parent_id := none, content_permissions := some "ManagedByOwner"
    created_at := some 50, updated_at := some 60
    workbook_count := 0, datasource_count := 0, flow_count := 0 }

/-- A sample flow with no tags. -/
def fl1 : FlowMetadata :=
  { id := "fl-1", name := "Nightly Prep", description := none
    project_id := "p-1", project_name := "Sales", owner_id := "u-1"
    owner_name := "alice", created_at := some 70, updated_at := some 80
    webpage_url := none, tags := [] }

/-- Sample server metadata with two workbooks, one datasource, one project
and no flows — the instance named by the export claim. -/
def sampleMeta : ServerMetadata :=
  { server_url := "https://srv", version := "2024.1"
    rest_api_version := "3.22", site_id := "s-1", site_name := "Default"
    timestamp := 1000
    workbooks := [wb1, wb2], datasources := [ds1], projects := [p1]
    flows := [] }

/-- Server metadata with all four lists empty. -/
def emptyMeta : ServerMetadata :=
  { server_url := "https://srv", version := "2024.1"
    rest_api_version := "3.22", site_id := "s-1", site_name := "Default"
    timestamp := 1000
    workbooks := [], datasources := [], projects := [], flows := [] }

/-- Server metadata whose only content is one flow. -/
def flowOnlyMeta : ServerMetadata :=
  { server_url := "https://srv", version := "2024.1"
    rest_api_version := "3.22", site_id := "s-1", site_name := "Default"
    timestamp := 1000
    workbooks := [], datasources := [], projects := [], flows := [fl1] }

/-- Server metadata with one project and one untagged flow. -/
def tagCexMeta : ServerMetadata :=
  { server_url := "https://srv", version := "2024.1"
    rest_api_version := "3.22", site_id := "s-1", site_name := "Default"
    timestamp := 1000
    workbooks := [], datasources := [], projects := [p1], flows := [fl1] }

/-- A filter dictionary whose only key is `tags`. -/
def tagOnlyFilter : Filters :=
  { project_names := none, owner_names := none, tags := some ["certified"]
    updated_since := none }

/-- A filter dictionary whose only key is `project_names`. -/
def projOnlyFilter : Filters :=
  { project_names := some ["Sales"], owner_names := none, tags := none
    updated_since := none }

/-- A filter dictionary whose only key is `owner_names`. -/
def ownerOnlyFilter : Filters :=
  { project_names := none, owner_names := some ["alice"], tags := none
    updated_since := none }

/-- A sample environment carrying every credential variable. -/
def envSample : Env :=
  { server_url := some "https://srv", site_id := some "s-1"
    token_name := some "tok", token_value := some "secret"
    username := some "alice", password := some "pw"
    jwt_token := some "jwt-abc" }

/-- An operation failing on the first two attempts and succeeding on the
third. -/
def opThirdTime : Nat → Except String Nat :=
  fun i => if i < 2 then Except.error "boom" else Except.ok 7

/-- An operation failing on every attempt. -/
def opAlwaysFails : Nat → Except String Nat :=
  fun i => Except.error (Nat.repr i)

/-- A vendor sign-in that fails on every call. -/
def failingSignIn : Nat → Except String Unit :=
  fun _ => Except.error "boom"

lemma parse_datetime_id (o : Option DT) : parse_datetime o = o := by
  cases o <;> rfl

/-! ## Claims -/

/-- Claim C1: for every `ServerMetadata` value `M`, serializing `M` to JSON
and deserializing it through the storage load path
(`LocalStorage._dict_to_metadata`) yields a `ServerMetadata` whose workbook
list equals `M`'s workbook list element-for-element on the id, name,
created_at and updated_at fields, and whose datasources, projects and flows
lists are empty regardless of `M`'s contents. -/
theorem C1_roundtrip_workbooks_only (m : ServerMetadata) :
    (dict_to_metadata (metadata_to_dict m)).workbooks.map wbKey
      = m.workbooks.map wbKey
  ∧ (dict_to_metadata (metadata_to_dict m)).datasources = []
  ∧ (dict_to_metadata (metadata_to_dict m)).projects = []
  ∧ (dict_to_metadata (metadata_to_dict m)).flows = [] := by
  refine ⟨?_, rfl, rfl, rfl⟩
  simp only [dict_to_metadata, metadata_to_dict, List.map_map]
  apply List.map_congr_left
  intro wb _
  simp [wbKey, dict_to_workbook, workbook_to_dict, parse_datetime_id,
    Function.comp]

/-- Claim C2: for every operation passed to the retry wrapper, if it raises
on the first two attempts and succeeds on the third, the wrapper returns the
successful result; if it raises on all three configured attempts, the
wrapper propagates the exception of the final attempt at its original type;
the recorded sleeps double from each attempt to the next; and the helper
`retry_on_failure` performs the identical schedule. -/
theorem C2_retry_behavior {E A : Type} (op : Nat → Except E A)
    (e0 e1 e2 : E) (v : A) :
    (op 0 = Except.error e0 → op 1 = Except.error e1 → op 2 = Except.ok v →
      retry_operation op = (Except.ok v, [1, 2]))
  ∧ (op 0 = Except.error e0 → op 1 = Except.error e1 →
      op 2 = Except.error e2 →
      retry_operation op = (Except.error e2, [1, 2]))
  ∧ List.Chain' (fun a b => b = 2 * a) (retry_operation op).2
  ∧ retry_on_failure op = retry_operation op := by
  refine ⟨?_, ?_, ?_, ?_⟩
  · intro h0 h1 h2
    simp [retry_operation, retryGo, h0, h1, h2]
  · intro h0 h1 h2
    simp [retry_operation, retryGo, h0, h1, h2]
  · cases h0 : op 0 <;> cases h1 : op 1 <;>
      simp [retry_operation, retryGo, h0, h1]
  · cases h0 : op 0 <;> cases h1 : op 1 <;>
      simp [retry_operation, retryGo, retry_on_failure, retryOnFailureGo,
        h0, h1]

/-- Witness for C2 at a concrete operation: two failures then success
returns the result and sleeps 1 s then 2 s. -/
theorem C2_witness :
    retry_operation opThirdTime = (Except.ok 7, [1, 2]) :=
  (C2_retry_behavior opThirdTime "boom" "boom" "boom" 7).1 rfl rfl rfl

/-- Claim C3: for every environment in which the server URL variable is set
(to a non-empty string — Python truthiness treats an empty value as unset),
the resolver picks, in order of precedence, the personal access token when
both token variables are set, otherwise username/password when both are set,
otherwise JWT when set, and raises a `ConfigurationError` when no method's
credentials are complete. -/
theorem C3_env_auth_precedence (env : Env)
    (hs : truthy env.server_url = true) :
    (truthy env.token_name = true → truthy env.token_value = true →
      create_auth_config_from_env env = Except.ok
        { server_url := env.server_url.getD "", site_id := env.site_id.getD ""
          auth_method := AuthMethod.personal_access_token
          token_name := env.token_name, token_value := env.token_value
          username := none, password := none, jwt_token := none })
  ∧ (¬(truthy env.token_name = true ∧ truthy env.token_value = true) →
      truthy env.username = true → truthy env.password = true →
      create_auth_config_from_env env = Except.ok
        { server_url := env.server_url.getD "", site_id := env.site_id.getD ""
          auth_method := AuthMethod.username_password
          token_name := none, token_value := none
          username := env.username, password := env.password
          jwt_token := none })
  ∧ (¬(truthy env.token_name = true ∧ truthy env.token_value = true) →
      ¬(truthy env.username = true ∧ truthy env.password = true) →
      truthy env.jwt_token = true →
      create_auth_config_from_env env = Except.ok
        { server_url := env.server_url.getD "", site_id := env.site_id.getD ""
          auth_method := AuthMethod.jwt
          token_name := none, token_value := none
          username := none, password := none, jwt_token := env.jwt_token })
  ∧ (¬(truthy env.token_name = true ∧ truthy env.token_value = true) →
      ¬(truthy env.username = true ∧ truthy env.password = true) →
      truthy env.jwt_token = false →
      create_auth_config_from_env env = Except.error
        (PyError.configurationError
          "No valid authentication credentials found in environment variables")) := by
  have hs' : (!truthy env.server_url) = false := by simp [hs]
  refine ⟨?_, ?_, ?_, ?_⟩
  · intro h1 h2
    simp [create_auth_config_from_env, hs', h1, h2]
  · intro hno h1 h2
    have ht : (truthy env.token_name && truthy env.token_value) = false := by
      cases hn : truthy env.token_name <;>
        cases hv : truthy env.token_value <;> simp_all
    simp [create_auth_config_from_env, hs', ht, h1, h2]
  · intro hno1 hno2 h1
    have ht : (truthy env.token_name && truthy env.token_value) = false := by
      cases hn : truthy env.token_name <;>
        cases hv : truthy env.token_value <;> simp_all
    have hu : (truthy env.username && truthy env.password) = false := by
      cases hn : truthy env.username <;>
        cases hv : truthy env.password <;> simp_all
    simp [create_auth_config_from_env, hs', ht, hu, h1]
  · intro hno1 hno2 h1
    have ht : (truthy env.token_name && truthy env.token_value) = false := by
      cases hn : truthy env.token_name <;>
        cases hv : truthy env.token_value <;> simp_all
    have hu : (truthy env.username && truthy env.password) = false := by
      cases hn : truthy env.username <;>
        cases hv : truthy env.password <;> simp_all
    simp [create_auth_config_from_env, hs', ht, hu, h1]

/-- Witness for C3: with every credential variable set, the PAT wins. -/
theorem C3_witness :
    truthy envSample.server_url = true
  ∧ create_auth_config_from_env envSample = Except.ok
      { server_url := "https://srv", site_id := "s-1"
        auth_method := AuthMethod.personal_access_token
        token_name := some "tok", token_value := some "secret"
        username := none, password := none, jwt_token := none } :=
  ⟨rfl, (C3_env_auth_precedence envSample rfl).1 rfl rfl⟩

/-- Claim C4: for every `ServerMetadata` `M` and filter dictionaries `A`,
`B` with disjoint key sets drawn from project_names / owner_names / tags /
updated_since, filtering by `A` then by `B` equals filtering once by the
union of the two dictionaries. -/
theorem C4_filter_compose (m : ServerMetadata) (A B : Filters)
    (h : DisjointFilters A B) :
    filter_metadata (filter_metadata m A) B
      = filter_metadata m (unionFilters A B) := by
  refine ServerMetadata.ext_fields rfl rfl rfl rfl rfl rfl ?_ ?_ ?_ ?_
  · rw [filter_metadata_workbooks, filter_metadata_workbooks,
      filter_metadata_workbooks, List.filter_filter]
    apply List.filter_congr
    intro x _
    simp [wbKeep_union h, Bool.and_comm]
  · rw [filter_metadata_datasources, filter_metadata_datasources,
      filter_metadata_datasources, List.filter_filter]
    apply List.filter_congr
    intro x _
    simp [dsKeep_union h, Bool.and_comm]
  · rw [filter_metadata_projects, filter_metadata_projects,
      filter_metadata_projects, List.filter_filter]
    apply List.filter_congr
    intro x _
    simp [projKeep_union h, Bool.and_comm]
  · rw [filter_metadata_flows, filter_metadata_flows,
      filter_metadata_flows, List.filter_filter]
    apply List.filter_congr
    intro x _
    simp [flKeep_union h, Bool.and_comm]

/-- Witness for C4 at concrete disjoint dictionaries: a project-name filter
followed by an owner-name filter equals the single merged filter. -/
theorem C4_witness :
    DisjointFilters projOnlyFilter ownerOnlyFilter
  ∧ filter_metadata (filter_metadata sampleMeta projOnlyFilter) ownerOnlyFilter
      = filter_metadata sampleMeta (unionFilters projOnlyFilter ownerOnlyFilter) :=
  ⟨⟨Or.inr rfl, Or.inl rfl, Or.inl rfl, Or.inl rfl⟩,
   C4_filter_compose sampleMeta projOnlyFilter ownerOnlyFilter
     ⟨Or.inr rfl, Or.inl rfl, Or.inl rfl, Or.inl rfl⟩⟩

/-- Counterexample to claim C5 as stated: the claim says the tag-intersection
predicate is applied across all four lists, which would empty a projects
list under a tag filter no project can satisfy (a `ProjectMetadata` has no
tags at all); the code leaves the projects list untouched while the same
filter does empty the flows list. -/
theorem C5_counterexample :
    (filter_metadata tagCexMeta tagOnlyFilter).flows = []
  ∧ (filter_metadata tagCexMeta tagOnlyFilter).projects = tagCexMeta.projects
  ∧ tagCexMeta.projects ≠ [] := by
  refine ⟨rfl, rfl, ?_⟩
  simp [tagCexMeta]

/-- Claim C5 (amended): `filter_metadata` applies the conjunction of the
specified predicates across the workbooks, datasources and flows lists; the
projects list is constrained by the project-name predicate only (a project
has no owner, tags or update time); every predicate whose key is absent
leaves the corresponding lists unconstrained, and the empty filter
dictionary returns the metadata unchanged. -/
theorem C5_filter_conjunction (m : ServerMetadata) (fs : Filters) :
    (filter_metadata m fs).workbooks = m.workbooks.filter (wbKeep fs)
  ∧ (filter_metadata m fs).datasources = m.datasources.filter (dsKeep fs)
  ∧ (filter_metadata m fs).projects = m.projects.filter (projKeep fs)
  ∧ (filter_metadata m fs).flows = m.flows.filter (flKeep fs)
  ∧ filter_metadata m noFilters = m :=
  ⟨filter_metadata_workbooks m fs, filter_metadata_datasources m fs,
   filter_metadata_projects m fs, filter_metadata_flows m fs, rfl⟩

/-- Counterexample to claim C6 as stated: the claim demands one file per
entity type for every `ServerMetadata`, but the export writes a file only
when the corresponding list is non-empty and has no flows file at all — a
metadata holding exactly one flow exports zero files. -/
theorem C6_counterexample :
    export_csv flowOnlyMeta = [] ∧ flowOnlyMeta.flows ≠ [] := by
  refine ⟨rfl, ?_⟩
  simp [flowOnlyMeta]

/-- Claim C6 (amended): exporting to CSV produces one file per non-empty
entity list among workbooks, datasources and projects (flows are never
exported, empty lists produce no file); each produced file begins with the
documented header row and has one data row per entity; the flows list never
affects the output.  In particular two workbooks, one datasource and one
project yield exactly three files. -/
theorem C6_export_characterization (m : ServerMetadata)
    (fl : List FlowMetadata) :
    ((export_csv m).length =
      (if m.workbooks.isEmpty then 0 else 1)
        + (if m.datasources.isEmpty then 0 else 1)
        + (if m.projects.isEmpty then 0 else 1))
  ∧ (∀ f ∈ export_csv m,
      (f.name = "workbooks.csv"
        ∧ f.rows = wbCsvHeader :: m.workbooks.map wbCsvRow)
      ∨ (f.name = "datasources.csv"
        ∧ f.rows = dsCsvHeader :: m.datasources.map dsCsvRow)
      ∨ (f.name = "projects.csv"
        ∧ f.rows = projCsvHeader :: m.projects.map projCsvRow))
  ∧ export_csv { m with flows := fl } = export_csv m := by
  refine ⟨?_, ?_, rfl⟩
  · simp only [export_csv, List.length_append]
    split_ifs <;> rfl
  · intro f hf
    simp only [export_csv, List.mem_append] at hf
    rcases hf with (hf | hf) | hf
    · left
      split at hf
      · simp at hf
      · simp only [List.mem_singleton] at hf
        subst hf
        exact ⟨rfl, rfl⟩
    · right; left
      split at hf
      · simp at hf
      · simp only [List.mem_singleton] at hf
        subst hf
        exact ⟨rfl, rfl⟩
    · right; right
      split at hf
      · simp at hf
      · simp only [List.mem_singleton] at hf
        subst hf
        exact ⟨rfl, rfl⟩

/-- Witness for C6 at the instance the claim names: two workbooks, one
datasource, one project give exactly three files, and the first produced
file is the workbooks file with header plus two data rows. -/
theorem C6_witness :
    (export_csv sampleMeta).length = 3
  ∧ (((CsvFile.mk "workbooks.csv"
        (wbCsvHeader :: sampleMeta.workbooks.map wbCsvRow)).name
          = "workbooks.csv"
      ∧ (CsvFile.mk "workbooks.csv"
          (wbCsvHeader :: sampleMeta.workbooks.map wbCsvRow)).rows
            = wbCsvHeader :: sampleMeta.workbooks.map wbCsvRow)
    ∨ ((CsvFile.mk "workbooks.csv"
        (wbCsvHeader :: sampleMeta.workbooks.map wbCsvRow)).name
          = "datasources.csv"
      ∧ (CsvFile.mk "workbooks.csv"
          (wbCsvHeader :: sampleMeta.workbooks.map wbCsvRow)).rows
            = dsCsvHeader :: sampleMeta.datasources.map dsCsvRow)
    ∨ ((CsvFile.mk "workbooks.csv"
        (wbCsvHeader :: sampleMeta.workbooks.map wbCsvRow)).name
          = "projects.csv"
      ∧ (CsvFile.mk "workbooks.csv"
          (wbCsvHeader :: sampleMeta.workbooks.map wbCsvRow)).rows
            = projCsvHeader :: sampleMeta.projects.map projCsvRow)) := by
  have h := C6_export_characterization sampleMeta []
  have hexp : export_csv sampleMeta =
      [CsvFile.mk "workbooks.csv"
        (wbCsvHeader :: sampleMeta.workbooks.map wbCsvRow),
       CsvFile.mk "datasources.csv"
        (dsCsvHeader :: sampleMeta.datasources.map dsCsvRow),
       CsvFile.mk "projects.csv"
        (projCsvHeader :: sampleMeta.projects.map projCsvRow)] := rfl
  constructor
  · rw [h.1]; rfl
  · exact h.2.1 _ (by rw [hexp]; exact List.mem_cons_self _ _)

/-- Claim C7: for every `ServerMetadata` with all four entity lists empty,
`get_metadata_summary` reports zero for all four counts and empty
recent-update lists for workbooks and datasources (and, being a total
function of the embedding, raises no error). -/
theorem C7_summary_empty (m : ServerMetadata) (hw : m.workbooks = [])
    (hd : m.datasources = []) (hp : m.projects = []) (hf : m.flows = []) :
    (get_metadata_summary m).counts = SummaryCounts.mk 0 0 0 0
  ∧ (get_metadata_summary m).recent_workbooks = []
  ∧ (get_metadata_summary m).recent_datasources = [] := by
  simp [get_metadata_summary, sortByUpdatedDesc, hw, hd, hp, hf]

/-- Witness for C7 at concrete all-empty metadata. -/
theorem C7_witness :
    (get_metadata_summary emptyMeta).counts = SummaryCounts.mk 0 0 0 0
  ∧ (get_metadata_summary emptyMeta).recent_workbooks = []
  ∧ (get_metadata_summary emptyMeta).recent_datasources = [] :=
  C7_summary_empty emptyMeta rfl rfl rfl rfl

/-- Claim C8: `sign_out` is idempotent — when the server is not signed in it
is a no-op regardless of the vendor outcome, and after one successful
`sign_out` a second one leaves the state unchanged; a failure of
`authenticate` or of the vendor sign-out raises an `AuthenticationError`
whose message embeds the underlying cause, and `authenticate` consults only
its single first vendor attempt (no retry). -/
theorem C8_sign_out_idempotent :
    (∀ (s : TSCServer) (r : Except String Unit),
      s.signed_in = false → sign_out s r = Except.ok s)
  ∧ (∀ s s1 : TSCServer,
      sign_out s (Except.ok ()) = Except.ok s1 →
      sign_out s1 (Except.ok ()) = Except.ok s1)
  ∧ (∀ (f : Nat → Except String Unit) (e : String),
      f 0 = Except.error e →
      authenticate f = Except.error
        (PyError.authenticationError ("Authentication failed: " ++ e)))
  ∧ (∀ f g : Nat → Except String Unit,
      f 0 = g 0 → authenticate f = authenticate g)
  ∧ (∀ (s : TSCServer) (e : String),
      s.signed_in = true →
      sign_out s (Except.error e) = Except.error
        (PyError.authenticationError ("Sign out failed: " ++ e))) := by
  refine ⟨?_, ?_, ?_, ?_, ?_⟩
  · intro s r h
    simp [sign_out, h]
  · intro s s1 h
    cases hs : s.signed_in <;> simp [sign_out, hs] at h
    · subst h; simp [sign_out, hs]
    · subst h; simp [sign_out]
  · intro f e h
    simp [authenticate, h]
  · intro f g h
    simp [authenticate, h]
  · intro s e h
    simp [sign_out, h]

/-- Witness for C8 at concrete states: signing out while signed out is a
no-op, and a failing vendor sign-in is wrapped. -/
theorem C8_witness :
    sign_out (TSCServer.mk false) (Except.ok ()) = Except.ok (TSCServer.mk false)
  ∧ authenticate failingSignIn = Except.error
      (PyError.authenticationError "Authentication failed: boom") :=
  ⟨C8_sign_out_idempotent.1 (TSCServer.mk false) (Except.ok ()) rfl,
   C8_sign_out_idempotent.2.2.1 failingSignIn "boom" rfl⟩

/-- Claim C9: `filter_metadata` is a pure function returning a derived copy:
the result carries the same server_url, version, rest_api_version, site_id,
site_name and timestamp as the input, and (the embedding being a pure
function over immutable values, exactly as the source only reads `metadata`
and constructs a fresh `ServerMetadata`) the input is left unchanged, only
the four entity lists of the copy possibly differing. -/
theorem C9_filter_frame (m : ServerMetadata) (fs : Filters) :
    (filter_metadata m fs).server_url = m.server_url
  ∧ (filter_metadata m fs).version = m.version
  ∧ (filter_metadata m fs).rest_api_version = m.rest_api_version
  ∧ (filter_metadata m fs).site_id = m.site_id
  ∧ (filter_metadata m fs).site_name = m.site_name
  ∧ (filter_metadata m fs).timestamp = m.timestamp :=
  ⟨rfl, rfl, rfl, rfl, rfl, rfl⟩

/-- Claim C10: local `delete_metadata` returns `True` exactly when the file
existed (and then removes it), `False` without raising when it did not; the
S3 `delete_metadata` returns `True` even when the object does not exist. -/
theorem C10_delete_semantics (fs objects : List String) (path key : String) :
    ((local_delete_metadata fs path).1 = true ↔ path ∈ fs)
  ∧ path ∉ (local_delete_metadata fs path).2
  ∧ (path ∉ fs → local_delete_metadata fs path = (false, fs))
  ∧ (s3_delete_metadata objects key).1 = true := by
  refine ⟨?_, ?_, ?_, rfl⟩
  · by_cases h : path ∈ fs <;> simp [local_delete_metadata, h]
  · by_cases h : path ∈ fs <;> simp [local_delete_metadata, h]
  · intro h
    simp [local_delete_metadata, h]

/-- Witness for C10 at concrete inputs: deleting a missing local file
returns `False` and leaves the filesystem unchanged; deleting a missing S3
object returns `True`. -/
theorem C10_witness :
    local_delete_metadata ["site_a.json"] "site_b.json"
      = (false, ["site_a.json"])
  ∧ (s3_delete_metadata [] "missing.json").1 = true :=
  ⟨(C10_delete_semantics ["site_a.json"] [] "site_b.json" "missing.json").2.2.1
      (by simp),
   (C10_delete_semantics ["site_a.json"] [] "site_b.json" "missing.json").2.2.2⟩

end TableauAPI
